import Mathlib

/-!
Shallow embedding of the todo-management backend (FastAPI + SQLModel):
the Task Service tools (src/app/routes/tasks.py), the Auth Service
(src/app/routes/auth.py), and the chat / intent-resolution flow
(src/app/routes/chat.py), over the data model of src/app/models.py.

Conventions of the embedding:
- Machine integers and timestamps are `Nat` (SQLite integer primary keys are
  positive; `datetime.utcnow()` is an abstract tick passed in as `now`).
- A database table is a `List` of records in insertion (creation) order;
  `db.get(Model, pk)` is `List.find?` on the primary key; an UPDATE of the
  row with a given primary key is a `List.map` that rewrites exactly the
  records with that id; a DELETE is a `List.filter`.
- `HTTPException(status_code, detail)` is the error type of fallible
  operations, which return `Except HTTPException _`.
- Python string operations: `str.lower()` is `pyLower`; the
  substring test `pat in s` is `strContains s pat` below.
-/

namespace TodoApp

/-- `fastapi.HTTPException`: a status code plus a human-readable detail. -/
structure HTTPException where
  status_code : Nat
  detail : String
deriving DecidableEq, Repr

/-- A JSON-ish scalar appearing in tool-call parameter dictionaries
(`str` or `int` values in chat.py). -/
inductive PVal where
  | s (v : String)
  | n (v : Nat)
deriving DecidableEq, Repr

/-- chat.py `ToolCall`: a tool name and a parameter dictionary. -/
structure ToolCall where
  name : String
  parameters : List (String × PVal)
deriving DecidableEq, Repr

/-! ## Data model (src/app/models.py) -/

/-- models.py `Task` row: owning user, title, optional description,
completion flag, timestamps. -/
structure Task where
  id : Nat
  user_id : Nat
  title : String
  description : Option String
  completed : Bool
  created_at : Nat
  updated_at : Nat
deriving DecidableEq, Repr

/-- models.py `Conversation` row. -/
structure Conversation where
  id : Nat
  user_id : Nat
  created_at : Nat
  updated_at : Nat
deriving DecidableEq, Repr

/-- models.py `Message` row: transcript entry with a role
("user" or "assistant") and text content. -/
structure Message where
  id : Nat
  user_id : Nat
  conversation_id : Nat
  role : String
  content : String
  created_at : Nat
deriving DecidableEq, Repr

/-- models.py `User` row (relationship fields omitted: they are views of
the foreign keys, not stored columns). -/
structure UserRec where
  id : Nat
  email : String
  name : String
  hashed_password : String
  created_at : Nat
  updated_at : Nat
deriving DecidableEq, Repr

/-- A fresh autoincrement primary key: one more than the largest id in use
(SQLite rowid autoincrement; always ≥ 1). -/
def freshId (ids : List Nat) : Nat := ids.foldr max 0 + 1

/-! ## Task Service (src/app/routes/tasks.py) -/

/-- The `{task_id, status, title}` success payload each mutating tool returns. -/
structure TaskResult where
  task_id : Nat
  status : String
  title : String
deriving DecidableEq, Repr

/-- `db.get(Task, task_id)`: look the row up by primary key. -/
def dbGetTask (task_id : Nat) (ts : List Task) : Option Task :=
  ts.find? (fun t => t.id == task_id)

/-- tasks.py `complete_task` (lines 94-122): 404 if the task is missing,
403 if owned by another user, else set `completed := true`, refresh
`updated_at`, and return `{task_id, "completed", title}`. -/
def complete_task (user_id task_id now : Nat) (ts : List Task) :
    Except HTTPException (TaskResult × List Task) :=
  match dbGetTask task_id ts with
  | none => .error ⟨404, "Task not found"⟩
  | some task =>
    if task.user_id ≠ user_id then .error ⟨403, "Not authorized"⟩
    else
      .ok (⟨task.id, "completed", task.title⟩,
        ts.map (fun t => if t.id == task_id then
          { t with completed := true, updated_at := now } else t))

/-- tasks.py `delete_task` (lines 124-149): 404 if missing, 403 if owned by
another user, else remove the row and return `{task_id, "deleted", title}`. -/
def delete_task (user_id task_id : Nat) (ts : List Task) :
    Except HTTPException (TaskResult × List Task) :=
  match dbGetTask task_id ts with
  | none => .error ⟨404, "Task not found"⟩
  | some task =>
    if task.user_id ≠ user_id then .error ⟨403, "Not authorized"⟩
    else .ok (⟨task.id, "deleted", task.title⟩, ts.filter (fun t => !(t.id == task_id)))

/-- The field rewrite tasks.py `update_task` applies to the fetched row:
overwrite `title` / `description` only when the input supplies them
(`is not None` in Python — an explicit empty string IS supplied), then
refresh `updated_at`. -/
def applyTaskUpdate (title? desc? : Option String) (now : Nat) (t : Task) : Task :=
  let t := match title? with | some v => { t with title := v } | none => t
  let t := match desc? with | some v => { t with description := some v } | none => t
  { t with updated_at := now }

/-- tasks.py `update_task` (lines 151-183): 404 if missing, 403 if owned by
another user, else apply `applyTaskUpdate` to the row and return
`{task_id, "updated", title}` with the refreshed title. -/
def update_task (user_id task_id : Nat) (title? desc? : Option String) (now : Nat)
    (ts : List Task) : Except HTTPException (TaskResult × List Task) :=
  match dbGetTask task_id ts with
  | none => .error ⟨404, "Task not found"⟩
  | some task =>
    if task.user_id ≠ user_id then .error ⟨403, "Not authorized"⟩
    else
      .ok (⟨task.id, "updated", (applyTaskUpdate title? desc? now task).title⟩,
        ts.map (fun t => if t.id == task_id then applyTaskUpdate title? desc? now t else t))

/-- The task summary dict tasks.py `list_tasks` returns per row
(`created_at.isoformat()` kept as the abstract tick). -/
structure TaskSummary where
  id : Nat
  title : String
  description : Option String
  completed : Bool
  created_at : Nat
  updated_at : Nat
deriving DecidableEq, Repr

/-- Projection of a `Task` row to its listing summary. -/
def taskSummary (t : Task) : TaskSummary :=
  ⟨t.id, t.title, t.description, t.completed, t.created_at, t.updated_at⟩

/-- tasks.py `list_tasks` (lines 65-92): select the caller's rows, narrow by
the status filter ("pending" keeps `completed == False`, "completed" keeps
`completed == True`, anything else — including the default "all" — keeps
everything), and return their summaries in table (creation) order. -/
def list_tasks (user_id : Nat) (status : String) (ts : List Task) : List TaskSummary :=
  let query := ts.filter (fun t => t.user_id == user_id)
  let query :=
    if status == "pending" then query.filter (fun t => t.completed == false)
    else if status == "completed" then query.filter (fun t => t.completed == true)
    else query
  query.map taskSummary

/-! ## Auth Service (src/app/routes/auth.py) -/

/-- The JWT claims auth.py `create_access_token` signs: the subject and the
expiry timestamp (the signing itself is an out-of-scope primitive, so the
token is modelled by its payload). -/
structure TokenPayload where
  sub : String
  exp : Nat
deriving DecidableEq, Repr

/-- auth.py `create_access_token` (lines 94-101): payload is
`sub = user_id` and `exp = datetime.utcnow()` — the issuance instant itself. -/
def create_access_token (user_id : String) (now : Nat) : TokenPayload :=
  { sub := user_id, exp := now }

/-- The `{id, email, name}` user summary returned next to the token. -/
structure UserSummary where
  id : Nat
  email : String
  name : String
deriving DecidableEq, Repr

/-- auth.py `AuthResponse`: token plus user summary. -/
structure AuthResponse where
  token : TokenPayload
  user : UserSummary
deriving DecidableEq, Repr

/-- auth.py `signup` (lines 36-68): reject an already-registered email with
400, else store the user with the salted hash of the password (the bcrypt
primitive is the abstract `hash` parameter) and issue a token for
`str(user.id)` at `now`. -/
def signup (hash : String → String) (name email password : String) (now : Nat)
    (users : List UserRec) : Except HTTPException (AuthResponse × List UserRec) :=
  match users.find? (fun u => u.email == email) with
  | some _ => .error ⟨400, "Email already registered"⟩
  | none =>
    let uid := freshId (users.map (fun u => u.id))
    .ok (⟨create_access_token (toString uid) now, ⟨uid, email, name⟩⟩,
      users ++ [⟨uid, email, name, hash password, now, now⟩])

/-- auth.py `login` (lines 70-92): 401 when the email is unknown or the
hash verification fails (same error either way), else issue a token for
`str(user.id)` at `now`. -/
def login (hash : String → String) (email password : String) (now : Nat)
    (users : List UserRec) : Except HTTPException AuthResponse :=
  match users.find? (fun u => u.email == email) with
  | none => .error ⟨401, "Invalid email or password"⟩
  | some user =>
    if hash password ≠ user.hashed_password then .error ⟨401, "Invalid email or password"⟩
    else .ok ⟨create_access_token (toString user.id) now, ⟨user.id, user.email, user.name⟩⟩

/-! ## Intent Resolver (src/app/routes/chat.py, lines 98-229) -/

/-- Python `str.lower()`: lowercase the text character by character. -/
def pyLower (s : String) : String := ⟨s.data.map Char.toLower⟩

/-- Python substring membership `pat ∈ s` on character lists:
`pat` occurs contiguously in `s`. -/
def charsContain (pat : List Char) : List Char → Bool
  | [] => pat.isEmpty
  | c :: rest => pat.isPrefixOf (c :: rest) || charsContain pat rest

/-- Python `pat in s` on strings. -/
def strContains (s pat : String) : Bool := charsContain pat.toList s.toList

/-- Python `any(word in low for word in words)`. -/
def containsAny (low : String) (words : List String) : Bool :=
  words.any (fun w => strContains low w)

/-- Canned confirmation of the fallback add branch (chat.py line 201). -/
def fallbackAddText : String := "I\x27ve added that task for you! Is there anything else?"

/-- Canned listing text of the fallback list branch (chat.py line 206;
the source file stores the bullet as the mojibake bytes reproduced here). -/
def fallbackListText : String :=
  "Here are your tasks:\nâ€¢ Task 1 (pending)\nâ€¢ Task 2 (completed)\n\nYou have 1 pending task."

/-- Canned text of the fallback complete branch (chat.py line 211). -/
def fallbackCompleteText : String :=
  "Great job! I\x27ve marked that task as complete! ðŸŽ‰"

/-- Canned text of the fallback delete branch (chat.py line 216). -/
def fallbackDeleteText : String := "I\x27ve deleted that task for you."

/-- Canned help text of the fallback default branch (chat.py line 221). -/
def fallbackHelpText : String :=
  "I\x27m your AI task assistant! I can help you:\n\nâ€¢ Add new tasks\nâ€¢ List your tasks\nâ€¢ Mark tasks as complete\nâ€¢ Delete tasks\n\nJust ask me in natural language!"

/-- The fixed-title add-task call the fallback synthesizes. -/
def fallbackAddCall : ToolCall :=
  ⟨"add_task", [("title", .s "New task"), ("description", .s "Created from chat")]⟩

/-- The list-tasks call the fallback synthesizes. -/
def fallbackListCall : ToolCall := ⟨"list_tasks", [("status", .s "all")]⟩

/-- The complete-task call the fallback synthesizes (placeholder task id 1). -/
def fallbackCompleteCall : ToolCall := ⟨"complete_task", [("task_id", .n 1)]⟩

/-- The delete-task call the fallback synthesizes (placeholder task id 1). -/
def fallbackDeleteCall : ToolCall := ⟨"delete_task", [("task_id", .n 1)]⟩

/-- chat.py `get_fallback_response` (lines 194-221): lowercase the input,
then an if/elif chain of `any(word in message_lower ...)` keyword checks in
source order; the user id is taken but never consulted. -/
def get_fallback_response (user_message : String) (user_id : Nat) :
    String × List ToolCall :=
  let message_lower := pyLower user_message
  if containsAny message_lower ["add", "create", "remember"] then
    (fallbackAddText, [fallbackAddCall])
  else if containsAny message_lower ["list", "show", "what", "pending"] then
    (fallbackListText, [fallbackListCall])
  else if containsAny message_lower ["complete", "done", "finish"] then
    (fallbackCompleteText, [fallbackCompleteCall])
  else if containsAny message_lower ["delete", "remove"] then
    (fallbackDeleteText, [fallbackDeleteCall])
  else
    (fallbackHelpText, [])

/-- Restatement of the spec's fallback description (§4.4): an ordered rule
table — keyword group to canned response — consulted in a fixed priority
order on the lowercased text, defaulting to the help text with no tool
calls. Used only to compare against `get_fallback_response`. -/
def fallbackRules : List (List String × (String × List ToolCall)) :=
  [ (["add", "create", "remember"], (fallbackAddText, [fallbackAddCall])),
    (["list", "show", "what", "pending"], (fallbackListText, [fallbackListCall])),
    (["complete", "done", "finish"], (fallbackCompleteText, [fallbackCompleteCall])),
    (["delete", "remove"], (fallbackDeleteText, [fallbackDeleteCall])) ]

/-- The spec-side fallback classifier: first rule of `fallbackRules` whose
keyword group matches the lowercased text, else the help response. -/
def fallbackSpec (text : String) (user_id : Nat) : String × List ToolCall :=
  let low := pyLower text
  match fallbackRules.find? (fun r => containsAny low r.1) with
  | some r => r.2
  | none => (fallbackHelpText, [])

/-- chat.py `execute_tool` (lines 223-229): the tool-execution hook invoked
on the chosen tool call; in scope it formats the confirmation
`f"Executed \x7btool_call['name']\x7d successfully!"` without touching the
task store. -/
def execute_tool (tool_call : ToolCall) (user_id : Nat) : String :=
  "Executed " ++ tool_call.name ++ " successfully!"

/-- The decoded `data["choices"][0]["message"]` of the external completion
service: text content plus an optional `tool_calls` array. -/
structure AIMessage where
  content : String
  tool_calls : Option (List ToolCall)
deriving DecidableEq, Repr

/-- chat.py `call_ai_agent`, external-strategy branch (lines 173-189):
`message.get("tool_calls")` is truthy exactly when the array is present and
nonempty; then every requested call is decoded into `tool_calls`, only
`tool_calls[0]` is passed to `execute_tool`, and the pair
`(tool_response, tool_calls)` is returned. Otherwise the plain text content
is returned with an empty tool-call list. -/
def call_ai_agent_external (data : AIMessage) (user_id : Nat) :
    String × List ToolCall :=
  match data.tool_calls with
  | some (tc :: rest) => (execute_tool tc user_id, tc :: rest)
  | some [] => (data.content, [])
  | none => (data.content, [])

/-! ## Conversation Manager (src/app/routes/chat.py, lines 29-96) -/

/-- The chat request body: optional conversation id plus the message text. -/
structure ChatRequest where
  conversation_id : Option Nat
  message : String
deriving DecidableEq, Repr

/-- The chat response body. -/
structure ChatResponse where
  conversation_id : Nat
  response : String
  tool_calls : List ToolCall
deriving DecidableEq, Repr

/-- The persistent chat state: the conversations and messages tables, each
in insertion order. -/
structure ChatState where
  conversations : List Conversation
  messages : List Message
deriving DecidableEq, Repr

/-- Fresh conversation primary key. -/
def freshConversationId (cs : List Conversation) : Nat := freshId (cs.map (fun c => c.id))

/-- Fresh message primary key. -/
def freshMessageId (ms : List Message) : Nat := freshId (ms.map (fun m => m.id))

/-- Create a conversation owned by the caller and commit it
(chat.py lines 43-51). -/
def newConversationStep (user_id now : Nat) (s : ChatState) : Nat × ChatState :=
  let c : Conversation := ⟨freshConversationId s.conversations, user_id, now, now⟩
  (c.id, { s with conversations := s.conversations ++ [c] })

/-- Step 1 of the chat turn (chat.py lines 41-58): Python's
`if not conversation_id:` is true for `None` AND for `0`, so both create a
fresh conversation; any other id is loaded by primary key — 404 when absent,
`updated_at` refreshed when present. No ownership check is performed. -/
def getOrCreateConversation (user_id : Nat) (conversation_id? : Option Nat)
    (now : Nat) (s : ChatState) : Except HTTPException (Nat × ChatState) :=
  match conversation_id? with
  | none => .ok (newConversationStep user_id now s)
  | some cid =>
    if cid == 0 then .ok (newConversationStep user_id now s)
    else
      match s.conversations.find? (fun c => c.id == cid) with
      | none => .error ⟨404, "Conversation not found"⟩
      | some _ =>
        .ok (cid, { s with conversations :=
          s.conversations.map (fun c => if c.id == cid then { c with updated_at := now } else c) })

/-- Append one transcript `Message` row and commit it
(chat.py lines 60-69 and 74-83). -/
def appendMessage (user_id conversation_id : Nat) (role content : String)
    (now : Nat) (s : ChatState) : ChatState :=
  { s with messages := s.messages ++
      [⟨freshMessageId s.messages, user_id, conversation_id, role, content, now⟩] }

/-- chat.py `chat` (lines 29-96), parameterized by the intent resolver
`resolve` (the code's `call_ai_agent`, which never raises — every failure
is converted into the fallback): resolve the conversation, persist the user
message, invoke the resolver, persist the assistant message, and answer
with `{conversation_id, response, tool_calls}`. The returned state is the
committed database state, errors included. -/
def chat (resolve : String → Nat → String × List ToolCall) (user_id : Nat)
    (request : ChatRequest) (now : Nat) (s : ChatState) :
    Except HTTPException ChatResponse × ChatState :=
  match getOrCreateConversation user_id request.conversation_id now s with
  | .error e => (.error e, s)
  | .ok (conversation_id, s1) =>
    let s2 := appendMessage user_id conversation_id "user" request.message now s1
    let res := resolve request.message user_id
    let s3 := appendMessage user_id conversation_id "assistant" res.1 now s2
    (.ok ⟨conversation_id, res.1, res.2⟩, s3)

/-- The database state at the instant the chat turn hands control to the
Intent Resolver: conversation resolved and the user message already
committed (chat.py reaches line 72 only after the commit on line 69). -/
def chatUserPersistedState (user_id : Nat) (request : ChatRequest) (now : Nat)
    (s : ChatState) : Except HTTPException ChatState :=
  match getOrCreateConversation user_id request.conversation_id now s with
  | .error e => .error e
  | .ok (cid, s1) => .ok (appendMessage user_id cid "user" request.message now s1)

/-- The spec's reading of the list filter (§4.2): "all" keeps every task,
"pending" keeps the not-completed ones, "completed" the completed ones.
Used only to state what `list_tasks` must return. -/
def statusMatches (status : String) (t : Task) : Bool :=
  if status == "pending" then t.completed == false
  else if status == "completed" then t.completed == true
  else true

/-! ## Theorems -/

/-- C1: In the external (completion-service) strategy, when the service
signals one or more tool calls, the resolver passes only the first tool
call to the tool executor `execute_tool`, returns that call's formatted
result as the response text, and returns the full ordered list of all
requested tool calls, including the ones not executed. -/
theorem external_strategy_executes_first_returns_all
    (data : AIMessage) (user_id : Nat) (tc : ToolCall) (rest : List ToolCall)
    (h : data.tool_calls = some (tc :: rest)) :
    call_ai_agent_external data user_id = (execute_tool tc user_id, tc :: rest) := by
  simp [call_ai_agent_external, h]

/-- Witness for C1: two tool calls requested, only the first is executed,
both are returned. -/
theorem external_strategy_executes_first_returns_all_witness :
    call_ai_agent_external ⟨"txt", some [⟨"add_task", []⟩, ⟨"list_tasks", []⟩]⟩ 7 =
      ("Executed add_task successfully!", [⟨"add_task", []⟩, ⟨"list_tasks", []⟩]) := by
  have h := external_strategy_executes_first_returns_all
    ⟨"txt", some [⟨"add_task", []⟩, ⟨"list_tasks", []⟩]⟩ 7
    ⟨"add_task", []⟩ [⟨"list_tasks", []⟩] rfl
  simpa [execute_tool] using h

/-- C2: `complete_task`, `delete_task` and `update_task` all fail with 404
Not Found when no task with the given id exists, and with 403 Forbidden
when the task exists but is owned by a different user. -/
theorem task_mutations_notfound_and_forbidden
    (user_id task_id now : Nat) (title? desc? : Option String) (ts : List Task) :
    (dbGetTask task_id ts = none →
      complete_task user_id task_id now ts = .error ⟨404, "Task not found"⟩ ∧
      delete_task user_id task_id ts = .error ⟨404, "Task not found"⟩ ∧
      update_task user_id task_id title? desc? now ts = .error ⟨404, "Task not found"⟩) ∧
    (∀ task, dbGetTask task_id ts = some task → task.user_id ≠ user_id →
      complete_task user_id task_id now ts = .error ⟨403, "Not authorized"⟩ ∧
      delete_task user_id task_id ts = .error ⟨403, "Not authorized"⟩ ∧
      update_task user_id task_id title? desc? now ts = .error ⟨403, "Not authorized"⟩) := by
  constructor
  · intro h
    refine ⟨?_, ?_, ?_⟩ <;> simp [complete_task, delete_task, update_task, h]
  · intro task h hne
    refine ⟨?_, ?_, ?_⟩ <;> simp [complete_task, delete_task, update_task, h, hne]

/-- Witness for C2: with the single task id 1 owned by user 5, caller 6
gets 404 on the missing id 2 and 403 on the foreign id 1. -/
theorem task_mutations_notfound_and_forbidden_witness :
    complete_task 6 2 0 [⟨1, 5, "t", none, false, 0, 0⟩] = .error ⟨404, "Task not found"⟩ ∧
    complete_task 6 1 0 [⟨1, 5, "t", none, false, 0, 0⟩] = .error ⟨403, "Not authorized"⟩ := by
  refine ⟨((task_mutations_notfound_and_forbidden 6 2 0 none none
      [⟨1, 5, "t", none, false, 0, 0⟩]).1 (by decide)).1,
    ((task_mutations_notfound_and_forbidden 6 1 0 none none
      [⟨1, 5, "t", none, false, 0, 0⟩]).2 ⟨1, 5, "t", none, false, 0, 0⟩
      (by decide) (by decide)).1⟩

/-- C4: every token issued by `signup` or `login` carries
subject = the user's id rendered as a string, and an expiry claim equal to
the issuance instant `now` — i.e. the token is already expired at issuance. -/
theorem issued_token_sub_is_user_id_exp_is_issuance
    (hash : String → String) (name email password : String) (now : Nat)
    (users : List UserRec) :
    (∀ r users', signup hash name email password now users = .ok (r, users') →
      r.token.sub = toString r.user.id ∧ r.token.exp = now) ∧
    (∀ r, login hash email password now users = .ok r →
      r.token.sub = toString r.user.id ∧ r.token.exp = now) := by
  constructor
  · intro r users' h
    unfold signup at h
    cases hf : users.find? (fun u => u.email == email) with
    | some u => rw [hf] at h; exact absurd h (by simp)
    | none =>
      rw [hf] at h
      simp only [Except.ok.injEq, Prod.mk.injEq] at h
      obtain ⟨h1, -⟩ := h
      subst h1
      exact ⟨rfl, rfl⟩
  · intro r h
    unfold login at h
    cases hf : users.find? (fun u => u.email == email) with
    | none => rw [hf] at h; exact absurd h (by simp)
    | some user =>
      rw [hf] at h
      by_cases hv : hash password ≠ user.hashed_password
      · simp [hv] at h
      · simp only [hv, if_neg, not_false_eq_true, if_false, Except.ok.injEq] at h
        subst h
        exact ⟨rfl, rfl⟩

/-- Witness for C4: signup of the first user at instant 3 issues
sub = "1" and exp = 3; login of that user at instant 4 issues exp = 4. -/
theorem issued_token_sub_is_user_id_exp_is_issuance_witness :
    ((AuthResponse.mk ⟨"1", 3⟩ ⟨1, "e", "n"⟩).token.sub =
        toString (AuthResponse.mk ⟨"1", 3⟩ ⟨1, "e", "n"⟩).user.id ∧
      (AuthResponse.mk ⟨"1", 3⟩ ⟨1, "e", "n"⟩).token.exp = 3) ∧
    ((AuthResponse.mk ⟨"1", 4⟩ ⟨1, "e", "n"⟩).token.sub =
        toString (AuthResponse.mk ⟨"1", 4⟩ ⟨1, "e", "n"⟩).user.id ∧
      (AuthResponse.mk ⟨"1", 4⟩ ⟨1, "e", "n"⟩).token.exp = 4) :=
  ⟨(issued_token_sub_is_user_id_exp_is_issuance (fun p => p) "n" "e" "pw" 3 []).1
      ⟨⟨"1", 3⟩, ⟨1, "e", "n"⟩⟩ [⟨1, "e", "n", "pw", 3, 3⟩] rfl,
    (issued_token_sub_is_user_id_exp_is_issuance (fun p => p) "n" "e" "pw" 4
      [⟨1, "e", "n", "pw", 3, 3⟩]).2 ⟨⟨"1", 4⟩, ⟨1, "e", "n"⟩⟩ rfl⟩

/-- C6: the fallback strategy equals the spec's rule-table classifier —
keyword groups consulted in the fixed priority order add/create/remember,
then list/show/what/pending, then complete/done/finish, then
delete/remove, defaulting to the canned help text with no tool calls —
and it is a deterministic function of the lowercased input text alone
(the user id is never consulted). -/
theorem fallback_is_priority_keyword_classifier (msg : String) (user_id : Nat) :
    get_fallback_response msg user_id = fallbackSpec msg user_id ∧
    ∀ msg2 uid2, pyLower msg = pyLower msg2 →
      get_fallback_response msg user_id = get_fallback_response msg2 uid2 := by
  constructor
  · by_cases h1 : containsAny (pyLower msg) ["add", "create", "remember"] <;>
    by_cases h2 : containsAny (pyLower msg) ["list", "show", "what", "pending"] <;>
    by_cases h3 : containsAny (pyLower msg) ["complete", "done", "finish"] <;>
    by_cases h4 : containsAny (pyLower msg) ["delete", "remove"] <;>
    simp [get_fallback_response, fallbackSpec, fallbackRules, List.find?_cons,
      h1, h2, h3, h4]
  · intro msg2 uid2 hlow
    unfold get_fallback_response
    rw [hlow]

/-- Witness for C6: "Add milk!" and "ADD MILK!" lowercase to the same text
and classify identically, matching the rule-table classifier. -/
theorem fallback_is_priority_keyword_classifier_witness :
    get_fallback_response "Add milk!" 7 = fallbackSpec "Add milk!" 7 ∧
    get_fallback_response "Add milk!" 7 = get_fallback_response "ADD MILK!" 9 :=
  ⟨(fallback_is_priority_keyword_classifier "Add milk!" 7).1,
    (fallback_is_priority_keyword_classifier "Add milk!" 7).2 "ADD MILK!" 9 (by decide)⟩

/-- C7: a successful `update_task` rewrites the store by a per-row function
that leaves every row with a different id untouched and, on the addressed
row, overwrites exactly the supplied fields — `title` when given (an empty
string included), `description` when given (an empty string included) —
refreshes `updated_at` to `now`, and leaves id, owner, completion flag and
`created_at` unchanged. -/
theorem update_task_overwrites_only_supplied_fields
    (user_id task_id : Nat) (title? desc? : Option String) (now : Nat)
    (ts : List Task) (out : TaskResult) (ts' : List Task)
    (h : update_task user_id task_id title? desc? now ts = .ok (out, ts')) :
    ∃ f : Task → Task, ts' = ts.map f ∧
      (∀ t, t.id ≠ task_id → f t = t) ∧
      (∀ t, t.id = task_id →
        (f t).title = title?.getD t.title ∧
        (f t).description = desc?.or t.description ∧
        (f t).id = t.id ∧ (f t).user_id = t.user_id ∧
        (f t).completed = t.completed ∧ (f t).created_at = t.created_at ∧
        (f t).updated_at = now) := by
  unfold update_task at h
  cases hf : dbGetTask task_id ts with
  | none => rw [hf] at h; exact absurd h (by simp)
  | some task =>
    rw [hf] at h
    by_cases ho : task.user_id ≠ user_id
    · simp [ho] at h
    · simp only [if_neg ho, Except.ok.injEq, Prod.mk.injEq] at h
      obtain ⟨-, h2⟩ := h
      refine ⟨fun t => if t.id == task_id then applyTaskUpdate title? desc? now t else t,
        h2.symm, ?_, ?_⟩
      · intro t hne
        simp [hne]
      · intro t hid
        cases title? <;> cases desc? <;>
          simp [hid, applyTaskUpdate, Option.getD, Option.or]

/-- Witness for C7: updating task 1 with explicit empty title and empty
description overwrites both fields with "" and refreshes `updated_at`,
leaving the other fields alone. -/
theorem update_task_overwrites_only_supplied_fields_witness :
    ∃ f : Task → Task,
      [(⟨1, 5, "", some "", false, 0, 9⟩ : Task)] =
        [(⟨1, 5, "t", some "d", false, 0, 0⟩ : Task)].map f ∧
      (∀ t, t.id ≠ 1 → f t = t) ∧
      (∀ t : Task, t.id = 1 →
        (f t).title = (some "").getD t.title ∧
        (f t).description = (some "").or t.description ∧
        (f t).id = t.id ∧ (f t).user_id = t.user_id ∧
        (f t).completed = t.completed ∧ (f t).created_at = t.created_at ∧
        (f t).updated_at = 9) :=
  update_task_overwrites_only_supplied_fields 5 1 (some "") (some "") 9
    [⟨1, 5, "t", some "d", false, 0, 0⟩] ⟨1, "updated", ""⟩
    [⟨1, 5, "", some "", false, 0, 9⟩] rfl

/-- C8: `list_tasks` returns exactly the caller's tasks matching the status
filter ("all" keeps everything, "pending" the not-completed, "completed"
the completed), as summaries of a sublist of the store — hence in creation
order — and the empty sequence when nothing matches. -/
theorem list_tasks_returns_exactly_matching_in_order
    (user_id : Nat) (status : String) (ts : List Task) :
    list_tasks user_id status ts =
      (ts.filter (fun t => t.user_id == user_id && statusMatches status t)).map
        taskSummary ∧
    (∃ sub : List Task, sub.Sublist ts ∧
      list_tasks user_id status ts = sub.map taskSummary) ∧
    ((∀ t ∈ ts, ¬(t.user_id = user_id ∧ statusMatches status t = true)) →
      list_tasks user_id status ts = []) := by
  have hmain : list_tasks user_id status ts =
      (ts.filter (fun t => t.user_id == user_id && statusMatches status t)).map
        taskSummary := by
    unfold list_tasks statusMatches
    by_cases hp : status == "pending" <;> by_cases hc : status == "completed" <;>
      simp [hp, hc, List.filter_filter, Bool.and_comm]
  refine ⟨hmain, ⟨ts.filter (fun t => t.user_id == user_id && statusMatches status t),
    List.filter_sublist ts, hmain⟩, ?_⟩
  intro hnone
  rw [hmain, List.map_eq_nil_iff, List.filter_eq_nil_iff]
  intro t ht
  simp only [Bool.and_eq_true, beq_iff_eq, not_and]
  intro h1 h2
  exact hnone t ht ⟨h1, h2⟩

/-- Witness for C8: user 6 owns nothing in a one-task store, so the
listing is empty. -/
theorem list_tasks_returns_exactly_matching_in_order_witness :
    list_tasks 6 "all" [⟨1, 5, "a", none, true, 0, 0⟩] = [] :=
  (list_tasks_returns_exactly_matching_in_order 6 "all"
    [⟨1, 5, "a", none, true, 0, 0⟩]).2.2 (by decide)

/-- Helper: the completion rewrite preserves primary keys, so a primary-key
lookup after the rewrite returns the rewritten row. -/
theorem dbGetTask_complete_map (task_id now : Nat) (ts : List Task) :
    dbGetTask task_id (ts.map (fun t => if t.id == task_id then
        { t with completed := true, updated_at := now } else t)) =
      Option.map (fun t => if t.id == task_id then
        { t with completed := true, updated_at := now } else t)
        (dbGetTask task_id ts) := by
  unfold dbGetTask
  have hfun : ((fun t : Task => t.id == task_id) ∘ (fun t => if t.id == task_id then
      { t with completed := true, updated_at := now } else t)) =
      (fun t : Task => t.id == task_id) := by
    funext t
    by_cases h : t.id == task_id <;> simp [Function.comp, h]
  rw [List.find?_map, hfun]

/-- C9: after a successful `complete_task`, every row with the task's id
has its flag set; a second `complete_task` on the same (user, task) pair
succeeds again with status "completed" and leaves the flag true. -/
theorem complete_task_idempotent_on_flag
    (user_id task_id now1 now2 : Nat) (ts : List Task)
    (out1 : TaskResult) (ts1 : List Task)
    (h : complete_task user_id task_id now1 ts = .ok (out1, ts1)) :
    (∀ t ∈ ts1, t.id = task_id → t.completed = true) ∧
    ∃ out2 ts2, complete_task user_id task_id now2 ts1 = .ok (out2, ts2) ∧
      out2.status = "completed" ∧
      ∀ t ∈ ts2, t.id = task_id → t.completed = true := by
  have hflag : ∀ (now : Nat) (l : List Task), ∀ t ∈ l.map (fun t =>
      if t.id == task_id then { t with completed := true, updated_at := now } else t),
      t.id = task_id → t.completed = true := by
    intro now l t ht htid
    obtain ⟨t', -, rfl⟩ := List.mem_map.mp ht
    by_cases hc : t'.id == task_id
    · simp [hc]
    · rw [if_neg (by simpa using hc)] at htid ⊢
      exact absurd htid (by simpa using hc)
  unfold complete_task at h
  cases hf : dbGetTask task_id ts with
  | none => rw [hf] at h; exact absurd h (by simp)
  | some task =>
    rw [hf] at h
    by_cases ho : task.user_id ≠ user_id
    · simp [ho] at h
    · simp only [if_neg ho, Except.ok.injEq, Prod.mk.injEq] at h
      obtain ⟨-, hts1⟩ := h
      subst hts1
      have hp : (task.id == task_id) = true := by
        have hf' := hf
        unfold dbGetTask at hf'
        have h2 := List.find?_some hf'
        simpa using h2
      refine ⟨hflag now1 ts, ⟨task.id, "completed", task.title⟩,
        ((ts.map (fun t => if t.id == task_id then
            { t with completed := true, updated_at := now1 } else t)).map
          (fun t => if t.id == task_id then
            { t with completed := true, updated_at := now2 } else t)), ?_, rfl,
        hflag now2 _⟩
      unfold complete_task
      rw [dbGetTask_complete_map, hf]
      have hp' : task.id = task_id := by simpa using hp
      have ho' : task.user_id = user_id := by simpa using ho
      simp [hp', ho']

/-- Witness for C9: completing task 1 once sets the flag; completing it
again succeeds with status "completed" and the flag stays true. -/
theorem complete_task_idempotent_on_flag_witness :
    (∀ t ∈ [(⟨1, 5, "t", none, true, 0, 3⟩ : Task)], t.id = 1 → t.completed = true) ∧
    ∃ out2 ts2, complete_task 5 1 7 [(⟨1, 5, "t", none, true, 0, 3⟩ : Task)] =
        .ok (out2, ts2) ∧
      out2.status = "completed" ∧
      ∀ t ∈ ts2, t.id = 1 → t.completed = true :=
  complete_task_idempotent_on_flag 5 1 3 7 [⟨1, 5, "t", none, false, 0, 0⟩]
    ⟨1, "completed", "t"⟩ [⟨1, 5, "t", none, true, 0, 3⟩] rfl

/-- Helper: step 1 of the chat turn never touches the messages table. -/
theorem getOrCreateConversation_messages
    (user_id : Nat) (cid? : Option Nat) (now : Nat) (s : ChatState)
    (cid : Nat) (s1 : ChatState)
    (h : getOrCreateConversation user_id cid? now s = .ok (cid, s1)) :
    s1.messages = s.messages := by
  unfold getOrCreateConversation newConversationStep at h
  cases cid? with
  | none =>
    simp only [Except.ok.injEq, Prod.mk.injEq] at h
    obtain ⟨-, h2⟩ := h
    subst h2
    rfl
  | some c =>
    by_cases hz : c == 0
    · simp only [hz, if_true, Except.ok.injEq, Prod.mk.injEq] at h
      obtain ⟨-, h2⟩ := h
      subst h2
      rfl
    · cases hfind : s.conversations.find? (fun cc => cc.id == c) with
      | none => simp [hz, hfind] at h
      | some conv =>
        simp only [hz, hfind, Bool.false_eq_true, if_false, Except.ok.injEq,
          Prod.mk.injEq] at h
        obtain ⟨-, h2⟩ := h
        subst h2
        rfl

/-- C3: every successful chat turn appends exactly two messages to the
store, a "user" message carrying the incoming text and then an "assistant"
message carrying the produced response; the intermediate state
`chatUserPersistedState` — the store at the moment the Intent Resolver is
invoked — already holds the user message, and the rest of the turn adds
only the assistant message to it. -/
theorem chat_turn_appends_user_then_assistant
    (resolve : String → Nat → String × List ToolCall) (user_id : Nat)
    (request : ChatRequest) (now : Nat) (s : ChatState)
    (out : ChatResponse) (s' : ChatState)
    (h : chat resolve user_id request now s = (.ok out, s')) :
    ∃ m1 m2 sMid,
      chatUserPersistedState user_id request now s = .ok sMid ∧
      sMid.messages = s.messages ++ [m1] ∧
      s'.messages = sMid.messages ++ [m2] ∧
      s'.messages = s.messages ++ [m1, m2] ∧
      m1.role = "user" ∧ m1.content = request.message ∧
      m2.role = "assistant" ∧ m2.content = out.response := by
  unfold chat at h
  cases hg : getOrCreateConversation user_id request.conversation_id now s with
  | error e => rw [hg] at h; exact absurd h (by simp)
  | ok p =>
    obtain ⟨cid, s1⟩ := p
    rw [hg] at h
    have hmsg : s1.messages = s.messages :=
      getOrCreateConversation_messages user_id request.conversation_id now s cid s1 hg
    simp only [Prod.mk.injEq, Except.ok.injEq] at h
    obtain ⟨hout, hs'⟩ := h
    subst hs'
    refine ⟨⟨freshMessageId s1.messages, user_id, cid, "user", request.message, now⟩,
      ⟨freshMessageId (appendMessage user_id cid "user" request.message now s1).messages,
        user_id, cid, "assistant", (resolve request.message user_id).1, now⟩,
      appendMessage user_id cid "user" request.message now s1,
      ?_, ?_, ?_, ?_, rfl, rfl, rfl, ?_⟩
    · unfold chatUserPersistedState
      rw [hg]
    · simp [appendMessage, hmsg]
    · simp [appendMessage]
    · simp [appendMessage, hmsg]
    · rw [← hout]

/-- Witness for C3: a fresh-conversation turn over an empty store appends
the "user" and "assistant" messages in order. -/
theorem chat_turn_appends_user_then_assistant_witness :
    ∃ m1 m2 sMid,
      chatUserPersistedState 1 ⟨none, "hi"⟩ 5 ⟨[], []⟩ = .ok sMid ∧
      sMid.messages = (ChatState.mk [] []).messages ++ [m1] ∧
      (ChatState.mk [⟨1, 1, 5, 5⟩]
        [⟨1, 1, 1, "user", "hi", 5⟩, ⟨2, 1, 1, "assistant", "ok", 5⟩]).messages =
          sMid.messages ++ [m2] ∧
      (ChatState.mk [⟨1, 1, 5, 5⟩]
        [⟨1, 1, 1, "user", "hi", 5⟩, ⟨2, 1, 1, "assistant", "ok", 5⟩]).messages =
          (ChatState.mk [] []).messages ++ [m1, m2] ∧
      m1.role = "user" ∧ m1.content = (ChatRequest.mk none "hi").message ∧
      m2.role = "assistant" ∧
      m2.content = (ChatResponse.mk 1 "ok" []).response :=
  chat_turn_appends_user_then_assistant (fun _ _ => ("ok", [])) 1 ⟨none, "hi"⟩ 5
    ⟨[], []⟩ ⟨1, "ok", []⟩
    ⟨[⟨1, 1, 5, 5⟩], [⟨1, 1, 1, "user", "hi", 5⟩, ⟨2, 1, 1, "assistant", "ok", 5⟩]⟩ rfl

/-- C5 (amended): a chat request supplying a NONZERO conversation id for
which no conversation exists fails with 404 and returns the store
unchanged — in particular no message is persisted. (The zero id is
excluded: Python's `if not conversation_id:` treats 0 like an absent id
and creates a fresh conversation instead; see the counterexample.) -/
theorem chat_nonzero_missing_conversation_404
    (resolve : String → Nat → String × List ToolCall) (user_id cid : Nat)
    (msg : String) (now : Nat) (s : ChatState)
    (hnz : cid ≠ 0)
    (habs : s.conversations.find? (fun c => c.id == cid) = none) :
    chat resolve user_id ⟨some cid, msg⟩ now s =
      (.error ⟨404, "Conversation not found"⟩, s) := by
  have hbeq : (cid == 0) = false := by simpa using hnz
  unfold chat getOrCreateConversation
  simp [hbeq, habs]

/-- Witness for C5's amended statement: conversation id 7 over an empty
store yields 404 with the store unchanged. -/
theorem chat_nonzero_missing_conversation_404_witness :
    chat (fun _ _ => ("ok", [])) 1 ⟨some 7, "hi"⟩ 5 ⟨[], []⟩ =
      (.error ⟨404, "Conversation not found"⟩, ⟨[], []⟩) :=
  chat_nonzero_missing_conversation_404 (fun _ _ => ("ok", [])) 1 7 "hi" 5 ⟨[], []⟩
    (by decide) rfl

/-- Counterexample to C5 as stated: the request supplies conversation id 0,
no conversation with id 0 exists (the store is empty), yet the turn
succeeds — no 404 — and two new messages are persisted, because
`if not conversation_id:` in chat.py treats the supplied 0 as "create a
fresh conversation". -/
theorem chat_zero_conversation_id_bypasses_404 :
    (chat (fun _ _ => ("ok", [])) 1 ⟨some 0, "hi"⟩ 5 ⟨[], []⟩).1 =
      .ok ⟨1, "ok", []⟩ ∧
    (chat (fun _ _ => ("ok", [])) 1 ⟨some 0, "hi"⟩ 5 ⟨[], []⟩).2.messages =
      [⟨1, 1, 1, "user", "hi", 5⟩, ⟨2, 1, 1, "assistant", "ok", 5⟩] :=
  ⟨rfl, rfl⟩

/-- C10: the chat turn performs no ownership check on an existing
conversation: when the supplied (nonzero) conversation id resolves to a
conversation owned by a DIFFERENT user, the turn still succeeds — no
Forbidden — and appends both transcript messages to that other user's
conversation. -/
theorem chat_no_ownership_check_on_conversation
    (resolve : String → Nat → String × List ToolCall) (user_id cid : Nat)
    (msg : String) (now : Nat) (s : ChatState) (conv : Conversation)
    (hnz : cid ≠ 0)
    (hfind : s.conversations.find? (fun c => c.id == cid) = some conv)
    (hother : conv.user_id ≠ user_id) :
    ∃ out s', chat resolve user_id ⟨some cid, msg⟩ now s = (.ok out, s') ∧
      out.conversation_id = cid ∧
      ∃ m1 m2, s'.messages = s.messages ++ [m1, m2] ∧
        m1.conversation_id = cid ∧ m1.role = "user" ∧ m1.content = msg ∧
        m2.conversation_id = cid ∧ m2.role = "assistant" := by
  have hbeq : (cid == 0) = false := by simpa using hnz
  unfold chat getOrCreateConversation
  simp only [hbeq, Bool.false_eq_true, if_false, hfind]
  refine ⟨⟨cid, (resolve msg user_id).1, (resolve msg user_id).2⟩, _, rfl, rfl,
    ⟨freshMessageId s.messages, user_id, cid, "user", msg, now⟩,
    ⟨freshMessageId (s.messages ++
        [⟨freshMessageId s.messages, user_id, cid, "user", msg, now⟩]),
      user_id, cid, "assistant", (resolve msg user_id).1, now⟩,
    ?_, rfl, rfl, rfl, rfl, rfl⟩
  simp [appendMessage]

/-- Witness for C10: user 1 posts into conversation 3 owned by user 99;
the turn succeeds and both messages land in conversation 3. -/
theorem chat_no_ownership_check_on_conversation_witness :
    ∃ out s', chat (fun _ _ => ("ok", [])) 1 ⟨some 3, "hi"⟩ 5
        ⟨[⟨3, 99, 0, 0⟩], []⟩ = (.ok out, s') ∧
      out.conversation_id = 3 ∧
      ∃ m1 m2, s'.messages = (ChatState.mk [⟨3, 99, 0, 0⟩] []).messages ++ [m1, m2] ∧
        m1.conversation_id = 3 ∧ m1.role = "user" ∧ m1.content = "hi" ∧
        m2.conversation_id = 3 ∧ m2.role = "assistant" :=
  chat_no_ownership_check_on_conversation (fun _ _ => ("ok", [])) 1 3 "hi" 5
    ⟨[⟨3, 99, 0, 0⟩], []⟩ ⟨3, 99, 0, 0⟩ (by decide) rfl (by decide)

end TodoApp

